import Mathlib

/-!
# Verification of the snow-api collection pipeline

A shallow embedding of the core functions of the snow-api repository
(normalizer, elevation interpolation, HTTP retry loop, collection worker,
persistence cache invalidation, opening-date status rewrite, quality
monitor field checks), with theorems settling the specification claims.

Conventions of the embedding:
* Python numbers are `ℚ`; Python `None` (and an absent dict key, which
  `dict.get` conflates with `None`) is `Option.none`.
* Dynamically typed upstream JSON values are `PyVal` (number, string, or
  any other value such as a list/dict, for which `float()` raises).
* `float()` applied to a string is modelled by `parseFloat`, a decimal
  parser covering sign, integer and fractional digits, and surrounding
  whitespace; Python dates are modelled by their day ordinal
  (`daysFromCivil`), so that `date` subtraction is integer subtraction.
* I/O (HTTP, database, Redis) is modelled by explicit inputs: the
  per-attempt network outcome, the commit success flag, the set of cache
  keys present.
-/

namespace SnowApi

/-- A dynamically typed Python value as found in upstream JSON payloads.
`other` stands for values that are neither numbers nor strings
(lists, dicts, ...), on which `float()` raises `TypeError`. -/
inductive PyVal where
  | num (q : ℚ)
  | str (s : String)
  | coll (n : ℕ)
  | other
deriving DecidableEq, Repr

/-- Python truthiness for the values we model: `0`, `""` and empty
collections are falsy. -/
def PyVal.truthy : PyVal → Bool
  | .num q => q ≠ 0
  | .str s => s ≠ ""
  | .coll n => n ≠ 0
  | .other => true

/-- Strip leading and trailing whitespace from a character list
(model of Python `str.strip()` / Lean `String.trim`, kept on lists so the
kernel can evaluate it). -/
def trimL (cs : List Char) : List Char :=
  ((cs.dropWhile Char.isWhitespace).reverse.dropWhile Char.isWhitespace).reverse

/-- Lower-case a character list (model of Python `str.lower()`). -/
def lowerL (cs : List Char) : List Char :=
  cs.map Char.toLower

/-- Does `p` occur at the start of `s`? -/
def startsL (p : List Char) : List Char → Bool
  | [] => p.isEmpty
  | c :: rest =>
    match p with
    | [] => true
    | a :: as => a = c && startsL as rest

/-- Does `p` occur anywhere inside `s` (Python `p in s`)? -/
def hasSubL (p : List Char) : List Char → Bool
  | [] => p.isEmpty
  | c :: rest => startsL p (c :: rest) || hasSubL p rest

/-- Value of a digit string, e.g. `['4','2'] ↦ 42`. -/
def digitsVal (cs : List Char) : ℚ :=
  cs.foldl (fun a c => 10 * a + ((c.toNat - '0'.toNat : ℕ) : ℚ)) 0

/-- Value of a fractional digit string, e.g. `['2','5'] ↦ 1/4`. -/
def fracVal (cs : List Char) : ℚ :=
  cs.foldr (fun c a => (((c.toNat - '0'.toNat : ℕ) : ℚ) + a) / 10) 0

/-- Unsigned decimal literal: digits, optionally followed by `.` and more
digits; at least one digit in total. -/
def parseUnsigned (cs : List Char) : Option ℚ :=
  let ip := cs.takeWhile Char.isDigit
  let rest := cs.dropWhile Char.isDigit
  match rest with
  | [] => if ip.isEmpty then none else some (digitsVal ip)
  | '.' :: rest2 =>
    let fp := rest2.takeWhile Char.isDigit
    let rest3 := rest2.dropWhile Char.isDigit
    if rest3.isEmpty then
      if ip.isEmpty && fp.isEmpty then none
      else some (digitsVal ip + fracVal fp)
    else none
  | _ => none

/-- Model of Python `float(s)` on a string: optional sign around a decimal
literal, surrounding whitespace stripped; `none` models a `ValueError`.
(Exponent and special forms are not used by the payloads the claims
quantify over.) -/
def parseFloat (s : String) : Option ℚ :=
  match trimL s.toList with
  | '-' :: rest => (parseUnsigned rest).map (fun q => -q)
  | '+' :: rest => parseUnsigned rest
  | cs => parseUnsigned cs

/-- True for the sentinel strings the normalizer special-cases:
`value.strip() == '--' or value.strip() == ''`. -/
def isSentinelStr : PyVal → Bool
  | .str s => trimL s.toList = ['-', '-'] || trimL s.toList = []
  | _ => false

/-- Model of Python `float(v)`, returning `none` where Python raises
(`TypeError` on collections and other non-number, non-string values). -/
def pyFloat : PyVal → Option ℚ
  | .num q => some q
  | .str s => parseFloat s
  | .coll _ => none
  | .other => none

/-- `safe_float` from `DataNormalizer._normalize_mtnpowder`: `None` and
sentinel strings give the default, otherwise `float(value)` with the
default on `ValueError`/`TypeError`. -/
def safe_float (value : Option PyVal) (default : ℚ) : ℚ :=
  match value with
  | none => default
  | some v =>
    if isSentinelStr v then default
    else (pyFloat v).getD default

/-- `handle_none_as_zero` from `DataNormalizer._normalize_onthesnow`:
`None` and sentinel strings give `0`, otherwise `float(value) if value
else 0` with `0` on `ValueError`/`TypeError`. -/
def handle_none_as_zero (value : Option PyVal) : ℚ :=
  match value with
  | none => 0
  | some v =>
    if isSentinelStr v then 0
    else if v.truthy then (pyFloat v).getD 0
    else 0

/-- `handle_none_preserve` from `DataNormalizer._normalize_onthesnow`:
like `handle_none_as_zero` but producing `None` instead of `0`. -/
def handle_none_preserve (value : Option PyVal) : Option ℚ :=
  match value with
  | none => none
  | some v =>
    if isSentinelStr v then none
    else if v.truthy then pyFloat v
    else none

/-- Python `a or b` on two optional values (`dict.get` results). -/
def pyOrOpt (a b : Option PyVal) : Option PyVal :=
  match a with
  | none => b
  | some v => if v.truthy then some v else b

/-- Python `a or 0` on an optional value. -/
def pyOrZero (a : Option PyVal) : PyVal :=
  match a with
  | none => .num 0
  | some v => if v.truthy then v else .num 0

/-- Python `v == q` between a dynamic value and a number (never raises;
non-numbers compare unequal). -/
def pyEqNum (v : PyVal) (q : ℚ) : Bool :=
  match v with
  | .num x => x = q
  | _ => false

/-! ## Mtnpowder normalizer (`DataNormalizer._normalize_mtnpowder`)

The slice of the raw feed the claims touch: `SnowReport` counts and the
base-station temperature. Identity fields (name, slug, lat, lon, source
URL) and the derived `status` are config/string plumbing not referenced
by any claim and are elided from the record. -/

/-- `raw_data['SnowReport']` slice. -/
structure MtnSnowReport where
  TotalOpenLifts : Option PyVal := none
  TotalLifts : Option PyVal := none
  TotalOpenTrails : Option PyVal := none
  TotalTrails : Option PyVal := none
  StormTotalCM : Option PyVal := none

/-- Mtnpowder raw payload slice: the snow report and
`CurrentConditions.Base.TemperatureC`. -/
structure MtnRaw where
  SnowReport : MtnSnowReport := {}
  TemperatureC : Option PyVal := none

/-- Condition fields produced by `_normalize_mtnpowder`. The count fields
are `snow_report.get(..., 0)` passed through without coercion, hence they
keep the dynamic type `PyVal`. -/
structure MtnCond where
  new_snow : PyVal
  base_depth : ℚ
  lifts_open : PyVal
  lifts_total : PyVal
  trails_open : PyVal
  trails_total : PyVal
  temperature : ℚ

/-- `DataNormalizer._normalize_mtnpowder`, restricted to the condition
fields above. -/
def normalize_mtnpowder (raw : MtnRaw) : MtnCond :=
  { new_snow := (raw.SnowReport.StormTotalCM).getD (.num 0)
    base_depth := 0
    lifts_open := (raw.SnowReport.TotalOpenLifts).getD (.num 0)
    lifts_total := (raw.SnowReport.TotalLifts).getD (.num 0)
    trails_open := (raw.SnowReport.TotalOpenTrails).getD (.num 0)
    trails_total := (raw.SnowReport.TotalTrails).getD (.num 0)
    temperature := safe_float raw.TemperatureC 0 }

/-! ## Onthesnow normalizer (`DataNormalizer._normalize_onthesnow`)

The slice used by the claims: snow depths, lift/run counts, status flag.
Identity fields and the webcam list are elided; the temperature average
involves Python `+` on possibly non-numeric values and is not referenced
by any claim. -/

/-- Onthesnow raw payload slice (`props.pageProps.fullResort`):
`snow`, `lifts`, `runs` and `status` sub-dicts. -/
structure OtsRaw where
  snow_base : Option PyVal := none
  snow_summit : Option PyVal := none
  snow_last24 : Option PyVal := none
  lifts_open : Option PyVal := none
  lifts_total : Option PyVal := none
  runs_open : Option PyVal := none
  runs_total : Option PyVal := none
  openFlag : Option PyVal := none

/-- Condition fields produced by `_normalize_onthesnow`. -/
structure OtsCond where
  status : String
  new_snow : PyVal
  base_depth : Option ℚ
  snow_summit : Option ℚ
  lifts_open : ℚ
  lifts_total : ℚ
  trails_open : ℚ
  trails_total : ℚ

/-- `DataNormalizer._normalize_onthesnow`, restricted to the condition
fields above. -/
def normalize_onthesnow (raw : OtsRaw) : OtsCond :=
  let open_flag := raw.openFlag.getD (.num 2)
  let status :=
    if pyEqNum open_flag 0 then "open"
    else if pyEqNum open_flag 1 then "partial"
    else "closed"
  let base_depth := pyOrOpt raw.snow_base raw.snow_summit
  { status := status
    new_snow := pyOrZero raw.snow_last24
    base_depth := handle_none_preserve base_depth
    snow_summit := handle_none_preserve raw.snow_summit
    lifts_open := handle_none_as_zero raw.lifts_open
    lifts_total := handle_none_as_zero raw.lifts_total
    trails_open := handle_none_as_zero raw.runs_open
    trails_total := handle_none_as_zero raw.runs_total }

/-! ## Elevation interpolation
(`OpenMeteoCollector.interpolate_temperature_at_elevation`) -/

/-- The five pressure-level temperatures at one hour; `none` models a
missing key or a JSON null. -/
structure PressureTemps where
  t1000 : Option ℚ := none
  t925 : Option ℚ := none
  t850 : Option ℚ := none
  t700 : Option ℚ := none
  t500 : Option ℚ := none

/-- The `(elevation, temperature)` pairs for the non-null levels, in the
fixed table order 1000 hPa → 110 m, 925 → 750, 850 → 1500, 700 → 3000,
500 → 5500 (which is ascending in elevation). -/
def validPairs (pt : PressureTemps) : List (ℚ × ℚ) :=
  ([((110 : ℚ), pt.t1000), (750, pt.t925), (1500, pt.t850),
    (3000, pt.t700), (5500, pt.t500)]).filterMap
    (fun p => p.2.map (fun t => (p.1, t)))

/-- The in-range search loop: find the first adjacent pair of levels
bracketing the target and interpolate linearly; the trailing `none` is
the function's final `return None`. -/
def findBracket (t : ℚ) : List (ℚ × ℚ) → Option ℚ
  | p :: q :: rest =>
    if p.1 ≤ t ∧ t ≤ q.1 then
      some (p.2 + (t - p.1) / (q.1 - p.1) * (q.2 - p.2))
    else findBracket t (q :: rest)
  | _ => none

/-- The body of `interpolate_temperature_at_elevation` after the pairs
have been sorted by elevation: fewer than 2 pairs gives `None`; a target
at or below the lowest level extrapolates from the lowest two; at or
above the highest level extrapolates from the highest two; otherwise the
bracketing search. -/
def interpolateSorted (t : ℚ) : List (ℚ × ℚ) → Option ℚ
  | a :: b :: rest =>
    if t ≤ a.1 then
      some (a.2 + (b.2 - a.2) / (b.1 - a.1) * (t - a.1))
    else if (rest.getLastD b).1 ≤ t then
      some ((rest.getLastD b).2 +
        ((rest.getLastD b).2 - (((a :: b :: rest).dropLast).getLastD a).2) /
          ((rest.getLastD b).1 - (((a :: b :: rest).dropLast).getLastD a).1) *
        (t - (rest.getLastD b).1))
    else findBracket t (a :: b :: rest)
  | _ => none

/-- `OpenMeteoCollector.interpolate_temperature_at_elevation`: build the
valid `(elevation, temperature)` pairs, sort them by elevation (source:
`pairs.sort(key=lambda x: x[0])`, modelled by a stable insertion sort),
then extrapolate/interpolate. -/
def interpolate_temperature_at_elevation (t : ℚ) (pt : PressureTemps) : Option ℚ :=
  interpolateSorted t (List.insertionSort (fun a b => a.1 ≤ b.1) (validPairs pt))

/-! ## Open-Meteo normalizer (`DataNormalizer._normalize_openmeteo`)

The slice the claims reference: current banded temperatures, the hourly
forecast sequence, and the daily (`forecast_7d`) sequence. Current
weather scalars and 24h aggregates are plain projections/averages of the
same arrays not referenced by any claim and are elided. -/

/-- Resort configuration slice: the two elevations (absent keys are
`none`). -/
structure ResortConf where
  elevation_min : Option ℚ := none
  elevation_max : Option ℚ := none

/-- Truthiness of an optional number (`if elevation_min and
elevation_max:` treats both `None` and `0` as falsy). -/
def truthyOptQ : Option ℚ → Bool
  | none => false
  | some q => q ≠ 0

/-- `l[i] if i < len(l) else None` where the entries themselves may be
JSON nulls. -/
def nthOrNone (l : List (Option ℚ)) (i : ℕ) : Option ℚ :=
  (l.get? i).getD none

/-- The `hourly` block of the raw Open-Meteo payload; absent arrays are
`[]`. -/
structure OMHourly where
  time : List String := []
  temperature_2m : List (Option ℚ) := []
  apparent_temperature : List (Option ℚ) := []
  relativehumidity_2m : List (Option ℚ) := []
  windspeed_10m : List (Option ℚ) := []
  winddirection_10m : List (Option ℚ) := []
  freezinglevel_height : List (Option ℚ) := []
  weathercode : List (Option ℚ) := []
  snowfall : List (Option ℚ) := []
  precipitation : List (Option ℚ) := []
  temperature_1000hPa : List (Option ℚ) := []
  temperature_925hPa : List (Option ℚ) := []
  temperature_850hPa : List (Option ℚ) := []
  temperature_700hPa : List (Option ℚ) := []
  temperature_500hPa : List (Option ℚ) := []

/-- The `daily` block of the raw Open-Meteo payload. -/
structure OMDaily where
  time : List String := []
  temperature_2m_max : List (Option ℚ) := []
  temperature_2m_min : List (Option ℚ) := []
  snowfall_sum : List (Option ℚ) := []
  precipitation_sum : List (Option ℚ) := []

/-- Raw Open-Meteo payload: `daily` is `none` when the daily request
failed (the collector then returns the hourly data alone, and
`raw_data.get('daily', {})` is falsy). -/
structure OMRaw where
  hourly : OMHourly := {}
  daily : Option OMDaily := none

/-- The pressure-level temperatures at hour `i` of the payload. -/
def pressureAt (h : OMHourly) (i : ℕ) : PressureTemps :=
  { t1000 := nthOrNone h.temperature_1000hPa i
    t925 := nthOrNone h.temperature_925hPa i
    t850 := nthOrNone h.temperature_850hPa i
    t700 := nthOrNone h.temperature_700hPa i
    t500 := nthOrNone h.temperature_500hPa i }

/-- The plausibility filter on an interpolated banded temperature:
`temp if (temp is not None and -50 < temp < 50) else None`. -/
def plausibleTemp (v : Option ℚ) : Option ℚ :=
  match v with
  | some q => if -50 < q ∧ q < 50 then some q else none
  | none => none

/-- Banded temperature at `elev` for hour `i`, with plausibility filter
applied (used for the current hour and for every hourly forecast item). -/
def bandedAt (h : OMHourly) (i : ℕ) (elev : ℚ) : Option ℚ :=
  plausibleTemp (interpolate_temperature_at_elevation elev (pressureAt h i))

/-- One item of the hourly forecast sequence. The three banded fields are
only written when both elevations are truthy; an absent key is `none`. -/
structure ForecastItem where
  time : Option String
  temperature : Option ℚ
  apparent_temperature : Option ℚ
  humidity : Option ℚ
  windspeed : Option ℚ
  winddirection : Option ℚ
  freezing_level : Option ℚ
  weather_code : Option ℚ
  snowfall : Option ℚ
  precipitation : Option ℚ
  temp_base : Option ℚ
  temp_mid : Option ℚ
  temp_summit : Option ℚ
deriving Repr

/-- The hourly forecast item at index `i` (`for i in range(min(80,
len(times)))` body). -/
def hourlyItem (conf : ResortConf) (h : OMHourly) (i : ℕ) : ForecastItem :=
  let banded := truthyOptQ conf.elevation_min && truthyOptQ conf.elevation_max
  { time := h.time.get? i
    temperature := nthOrNone h.temperature_2m i
    apparent_temperature := nthOrNone h.apparent_temperature i
    humidity := nthOrNone h.relativehumidity_2m i
    windspeed := nthOrNone h.windspeed_10m i
    winddirection := nthOrNone h.winddirection_10m i
    freezing_level := nthOrNone h.freezinglevel_height i
    weather_code := nthOrNone h.weathercode i
    snowfall := nthOrNone h.snowfall i
    precipitation := nthOrNone h.precipitation i
    temp_base :=
      if banded then bandedAt h i ((conf.elevation_min).getD 0) else none
    temp_mid :=
      if banded then
        bandedAt h i (((conf.elevation_min).getD 0 + (conf.elevation_max).getD 0) / 2)
      else none
    temp_summit :=
      if banded then bandedAt h i ((conf.elevation_max).getD 0) else none }

/-- One item of the daily (`forecast_7d`) sequence. -/
structure DailyItem where
  date : Option String
  temp_max : Option ℚ
  temp_min : Option ℚ
  snowfall : Option ℚ
  precipitation : Option ℚ
  weather_code : Option ℚ
deriving Repr

/-- The daily weather code for `date`: the hourly code at `date + "T12:00"`
when that time exists in the hourly series, else the code of the first
hourly sample of that date, else `None`. -/
def dailyWeatherCode (h : OMHourly) (date : String) : Option ℚ :=
  if date ≠ "" ∧ h.time ≠ [] ∧ h.weathercode ≠ [] then
    match h.time.findIdx? (fun t => t = date ++ "T12:00") with
    | some idx => nthOrNone h.weathercode idx
    | none =>
      match h.time.findIdx? (fun t => startsL date.toList t.toList) with
      | some j => nthOrNone h.weathercode j
      | none => none
  else none

/-- The daily forecast item at index `i` (`for i in range(min(7,
len(times)))` body). -/
def dailyItem (h : OMHourly) (d : OMDaily) (i : ℕ) : DailyItem :=
  { date := d.time.get? i
    temp_max := nthOrNone d.temperature_2m_max i
    temp_min := nthOrNone d.temperature_2m_min i
    snowfall := nthOrNone d.snowfall_sum i
    precipitation := nthOrNone d.precipitation_sum i
    weather_code :=
      match d.time.get? i with
      | some date => dailyWeatherCode h date
      | none => none }

/-- The weather record produced by `_normalize_openmeteo`, restricted to
the fields the claims reference. -/
structure OMNorm where
  temp_base : Option ℚ
  temp_mid : Option ℚ
  temp_summit : Option ℚ
  hourly_forecast : List ForecastItem
  forecast_7d : List DailyItem

/-- `DataNormalizer._normalize_openmeteo`, restricted to banded current
temperatures and the two forecast sequences. -/
def normalize_openmeteo (conf : ResortConf) (raw : OMRaw) : OMNorm :=
  let h := raw.hourly
  let banded := truthyOptQ conf.elevation_min && truthyOptQ conf.elevation_max
  { temp_base :=
      if banded then bandedAt h 0 ((conf.elevation_min).getD 0) else none
    temp_mid :=
      if banded then
        bandedAt h 0 (((conf.elevation_min).getD 0 + (conf.elevation_max).getD 0) / 2)
      else none
    temp_summit :=
      if banded then bandedAt h 0 ((conf.elevation_max).getD 0) else none
    hourly_forecast :=
      (List.range (min 80 h.time.length)).map (fun i => hourlyItem conf h i)
    forecast_7d :=
      match raw.daily with
      | some d => (List.range (min 7 d.time.length)).map (fun i => dailyItem h d i)
      | none => [] }

/-! ## Opening-date status rewrite (`calculate_status_by_opening_date`)

Python dates are modelled by their day ordinal (days since 1970-01-01),
so the source's `(opening_date.date() - now.date()).days` is integer
subtraction of ordinals. -/

/-- Gregorian leap year. -/
def isLeapYear (y : ℤ) : Bool :=
  (y % 4 = 0 && y % 100 ≠ 0) || y % 400 = 0

/-- Number of days in a month. -/
def daysInMonth (y : ℤ) (m : ℕ) : ℕ :=
  if m = 2 then (if isLeapYear y then 29 else 28)
  else if m = 4 ∨ m = 6 ∨ m = 9 ∨ m = 11 then 30
  else 31

/-- Day ordinal of a civil date (days since 1970-01-01), the standard
era-based Gregorian conversion; models Python `datetime.date`
subtraction. -/
def daysFromCivil (y : ℤ) (m d : ℕ) : ℤ :=
  let yAdj : ℤ := if m ≤ 2 then y - 1 else y
  let era : ℤ := (if 0 ≤ yAdj then yAdj else yAdj - 399) / 400
  let yoe : ℤ := yAdj - era * 400
  let mp : ℤ := ((m : ℤ) + 9) % 12
  let doy : ℤ := (153 * mp + 2) / 5 + (d : ℤ) - 1
  let doe : ℤ := yoe * 365 + yoe / 4 - yoe / 100 + doy
  era * 146097 + doe - 719468

/-- Digit character to its value. -/
def digitVal (c : Char) : ℕ := c.toNat - '0'.toNat

/-- Model of `datetime.fromisoformat(s).date()`: parse the leading
`YYYY-MM-DD` and validate it as a calendar date, returning the day
ordinal. (The source first replaces a trailing `Z` and may carry a time
suffix; the claims only quantify over parseable values, and `.date()`
discards the time component, so the suffix is not validated here.) -/
def parseIsoDate (s : String) : Option ℤ :=
  match s.toList with
  | y1 :: y2 :: y3 :: y4 :: '-' :: m1 :: m2 :: '-' :: d1 :: d2 :: _ =>
    if (y1.isDigit && y2.isDigit && y3.isDigit && y4.isDigit &&
        m1.isDigit && m2.isDigit && d1.isDigit && d2.isDigit) then
      let y : ℤ := (1000 * digitVal y1 + 100 * digitVal y2 + 10 * digitVal y3 + digitVal y4 : ℕ)
      let m : ℕ := 10 * digitVal m1 + digitVal m2
      let d : ℕ := 10 * digitVal d1 + digitVal d2
      if 1 ≤ m ∧ m ≤ 12 ∧ 1 ≤ d ∧ d ≤ daysInMonth y m then
        some (daysFromCivil y m d)
      else none
    else none
  | _ => none

/-- `calculate_status_by_opening_date` from `db_manager.py`: `today` is
the day ordinal of `now.date()`. A missing or empty or unparseable
opening date keeps the original status; otherwise `difference =
(opening_date.date() - now.date()).days` decides: opened 1–50 days ago →
`open`; opened more than 50 days ago → original; `difference ≥ 0` →
`closed`. -/
def calculate_status_by_opening_date (opening_date_str : Option String)
    (today : ℤ) (original_status : String) : String :=
  match opening_date_str with
  | none => original_status
  | some s =>
    if s = "" then original_status
    else
      match parseIsoDate s with
      | none => original_status
      | some opening =>
        let difference := opening - today
        if difference < 0 then
          let days_since_opening := -difference
          if days_since_opening ≤ 50 then "open"
          else original_status
        else "closed"

/-- The stored condition row's `extra_data` blob (slice). -/
structure ExtraData where
  opening_date : Option String := none

/-- A stored condition row (slice: status and extra blob). -/
structure ConditionRow where
  status : String
  extra_data : Option ExtraData := none

/-- `latest_condition.extra_data.get('opening_date') if
latest_condition.extra_data else None`. -/
def openingDateOf (c : ConditionRow) : Option String :=
  match c.extra_data with
  | some e => e.opening_date
  | none => none

/-- Status returned by the single-resort read path
(`DatabaseManager.get_latest_resort_data`, backing `GET
/api/resorts/{id}` and `/api/resorts/slug/{slug}`). -/
def detailStatus (c : ConditionRow) (today : ℤ) : String :=
  calculate_status_by_opening_date (openingDateOf c) today c.status

/-- Status returned by the summary read path
(`DatabaseManager.get_all_resorts_summary`, backing `GET
/api/resorts/summary`). -/
def summaryStatus (c : ConditionRow) (today : ℤ) : String :=
  calculate_status_by_opening_date (openingDateOf c) today c.status

/-! ## Persistence write and cache invalidation
(`DatabaseManager.save_resort_data` / `_invalidate_cache`)

The cache is modelled as the list of keys currently present; a Redis
`delete` removes a key. The database side of the transaction is
abstracted by the `commitOk` flag (commit succeeds vs. raises and rolls
back). -/

/-- `DatabaseManager._invalidate_cache`: delete `resort:{id}`,
`resort:{slug}` and `resorts:all`. -/
def invalidate_cache (resortId : ℕ) (slug : String) (cache : List String) : List String :=
  cache.filter (fun k =>
    k ≠ "resort:" ++ toString resortId ∧ k ≠ "resort:" ++ slug ∧ k ≠ "resorts:all")

/-- `DatabaseManager.save_resort_data`, cache-effect slice: on a
successful commit it runs `_invalidate_cache` and returns `True`; on a
failed commit it rolls back, leaves the cache untouched and returns
`False`. -/
def save_resort_data (commitOk : Bool) (resortId : ℕ) (slug : String)
    (cache : List String) : Bool × List String :=
  if commitOk then (true, invalidate_cache resortId slug cache)
  else (false, cache)

/-! ## HTTP fetch with retry (`BaseCollector.fetch_with_retry`)

The network is modelled by a function from attempt index to outcome. -/

/-- Outcome of one HTTP attempt: a response with a status code, or one of
the caught `requests` exceptions. -/
inductive Attempt where
  | resp (status : ℕ)
  | timeout
  | connErr
  | reqErr
deriving DecidableEq, Repr

/-- The retry loop: `k` attempts already made, `n` remaining. Returns
the successful response's status (or `none`) together with the number of
attempts made. A 200 returns the response; a 404 returns `None`
immediately; every other outcome falls through to the next attempt. -/
def fetchLoop (env : ℕ → Attempt) (k : ℕ) : ℕ → Option ℕ × ℕ
  | 0 => (none, k)
  | n + 1 =>
    match env k with
    | .resp s =>
      if s = 200 then (some 200, k + 1)
      else if s = 404 then (none, k + 1)
      else fetchLoop env (k + 1) n
    | _ => fetchLoop env (k + 1) n

/-- `BaseCollector.fetch_with_retry` with `max_retries` attempts. -/
def fetch_with_retry (env : ℕ → Attempt) (max_retries : ℕ) : Option ℕ × ℕ :=
  fetchLoop env 0 max_retries

/-! ## Collection worker (`ResortDataManager._collect_single_resort`)

The worker body is one big `try`/`except Exception`: the embedding takes
the outcome of `collect_resort_data` as an `Except` (where `.error`
models a raised exception) and returns a plain pair — the catching is
structural, so no exception can reach the orchestrator. -/

/-- One entry of the failure tracker. -/
structure FailureEntry where
  resort_id : Option ℕ
  resort_name : Option String
  error_type : String
  error_message : String
  url : String
deriving Repr

/-- The error taxonomy. -/
def errorTypes : List String :=
  ["HTTP_404", "TIMEOUT", "CONNECTION_ERROR", "JSON_ERROR", "NO_DATA",
   "DATABASE_SAVE_FAILED", "UNKNOWN"]

/-- The worker's classification of a raised exception's message
(substring tests, the later ones on the lower-cased message). -/
def classifyError (e : String) : String :=
  if hasSubL "404".toList e.toList || hasSubL "Not Found".toList e.toList then
    "HTTP_404"
  else if hasSubL "timeout".toList (lowerL e.toList) ||
      hasSubL "timed out".toList (lowerL e.toList) then
    "TIMEOUT"
  else if hasSubL "connection".toList (lowerL e.toList) then
    "CONNECTION_ERROR"
  else if hasSubL "json".toList (lowerL e.toList) then
    "JSON_ERROR"
  else "UNKNOWN"

/-- `ResortDataManager._collect_single_resort` with a failure tracker
attached. `outcome` is what `collect_resort_data` did (`.error msg` = it
raised), `dbSave` abstracts `db_manager.save_resort_data`, and the
result is the worker's `(data, error)` pair together with the entries
appended to the tracker. -/
def collect_single_resort {α : Type} (resortId : Option ℕ)
    (resortName : Option String) (sourceUrl : Option String)
    (outcome : Except String (Option α)) (useDb : Bool) (dbSave : α → Bool) :
    (Option α × Option String) × List FailureEntry :=
  let url := sourceUrl.getD "N/A"
  match outcome with
  | .error e =>
    ((none, some e),
     [⟨resortId, resortName, classifyError e, ⟨e.toList.take 200⟩, url⟩])
  | .ok none =>
    ((none, some "NO_DATA"),
     [⟨resortId, resortName, "NO_DATA", "采集器返回空数据", url⟩])
  | .ok (some d) =>
    if useDb then
      if dbSave d then ((some d, none), [])
      else
        ((none, some "DATABASE_SAVE_FAILED"),
         [⟨resortId, resortName, "DATABASE_SAVE_FAILED",
           "数据采集成功但数据库保存失败", url⟩])
    else ((some d, none), [])

/-! ## Quality monitor (`DataMonitor._check_field`) -/

/-- A field check result (the `value` echo of the dataclass is elided;
the Chinese display label passed alongside the key is identified with
the key, since only the key enters the logic). -/
structure FieldCheck where
  field_name : String
  status : String
  message : String
deriving Repr

/-- The snow/count fields exempted from the zero warning when the resort
is not open (note: the source list has four entries, not the six
`SNOW_FIELDS`). -/
def zeroExemptFields : List String :=
  ["new_snow", "base_depth", "lifts_open", "trails_open"]

/-- The six snow/lift/trail count fields checked by the monitor. -/
def snowFields : List String :=
  ["new_snow", "base_depth", "lifts_open", "lifts_total", "trails_open",
   "trails_total"]

/-- `DataMonitor._check_field`: `resortStatus` is `data.get('status','')`,
`value` the (possibly missing) field value. -/
def check_field (resortStatus : String) (fieldKey : String)
    (value : Option PyVal) (isCritical : Bool) : FieldCheck :=
  match value with
  | none =>
    if isCritical then ⟨fieldKey, "error", "数据缺失"⟩
    else ⟨fieldKey, "warning", "暂无数据"⟩
  | some v =>
    match v with
    | .num q =>
      if (resortStatus = "closed" ∨ resortStatus = "partial") ∧
          fieldKey ∈ zeroExemptFields ∧ q = 0 then
        ⟨fieldKey, "success", "雪场未开放（正常）"⟩
      else if hasSubL "temperature".toList (lowerL fieldKey.toList) ∨
          hasSubL "temp".toList (lowerL fieldKey.toList) then
        if -40 ≤ q ∧ q ≤ 40 then ⟨fieldKey, "success", "数据正常"⟩
        else ⟨fieldKey, "error", "温度超出合理范围"⟩
      else if q = 0 then ⟨fieldKey, "warning", "数值为 0"⟩
      else if q < 0 then ⟨fieldKey, "error", "数值异常（负数）"⟩
      else ⟨fieldKey, "success", "数据正常"⟩
    | .str s =>
      if trimL s.toList = [] then ⟨fieldKey, "error", "数据为空"⟩
      else ⟨fieldKey, "success", "数据正常"⟩
    | .coll n =>
      if n = 0 then ⟨fieldKey, "warning", "数据为空"⟩
      else ⟨fieldKey, "success", "数据正常"⟩
    | .other => ⟨fieldKey, "success", "数据正常"⟩

/-! ## Helper lemmas -/

/-- The bracketing search succeeds whenever the target lies between the
first elevation and the last elevation of a list with at least two
pairs. -/
lemma findBracket_isSome (rest : List (ℚ × ℚ)) :
    ∀ (a b : ℚ × ℚ) (t : ℚ), a.1 ≤ t → t ≤ (rest.getLastD b).1 →
      (findBracket t (a :: b :: rest)).isSome := by
  induction rest with
  | nil =>
    intro a b t h1 h2
    simp only [List.getLastD] at h2
    simp [findBracket, h1, h2]
  | cons c rs ih =>
    intro a b t h1 h2
    rw [findBracket]
    by_cases hab : a.1 ≤ t ∧ t ≤ b.1
    · simp [hab]
    · have hbt : b.1 ≤ t := by
        rcases not_and_or.mp hab with h | h
        · exact absurd h1 h
        · exact le_of_lt (lt_of_not_le h)
      rw [List.getLastD_cons] at h2
      simp only [hab, if_false]
      exact ih b c t hbt h2

/-- With at least two sorted pairs, `interpolateSorted` always produces a
value (the final `return None` of the source is unreachable). -/
lemma interpolateSorted_isSome (t : ℚ) (l : List (ℚ × ℚ)) (h2 : 2 ≤ l.length) :
    (interpolateSorted t l).isSome := by
  match l with
  | [] => simp at h2
  | [a] => simp at h2
  | a :: b :: rest =>
    rw [interpolateSorted]
    by_cases hlow : t ≤ a.1
    · rw [if_pos hlow]; rfl
    · rw [if_neg hlow]
      by_cases hhigh : (rest.getLastD b).1 ≤ t
      · rw [if_pos hhigh]; rfl
      · rw [if_neg hhigh]
        exact findBracket_isSome rest a b t (le_of_lt (lt_of_not_le hlow))
          (le_of_lt (lt_of_not_le hhigh))

/-- On exactly two sorted pairs, the interpolation is the affine line
through the two points, for every target (the two extrapolation branches
and the interior branch agree on this line). -/
lemma interpolateSorted_pair (t e1 e2 v1 v2 : ℚ) (he : e1 < e2) :
    interpolateSorted t [(e1, v1), (e2, v2)] =
      some (v1 + (v2 - v1) / (e2 - e1) * (t - e1)) := by
  have hne : e2 - e1 ≠ 0 := sub_ne_zero.mpr he.ne'
  rw [interpolateSorted]
  by_cases h1 : t ≤ e1
  · rw [if_pos h1]
  · rw [if_neg h1]
    by_cases h2 : e2 ≤ t
    · have hd : (([((e1, v1) : ℚ × ℚ), (e2, v2)]).dropLast) = [(e1, v1)] := rfl
      simp only [List.getLastD, hd]
      rw [if_pos h2, Option.some.injEq]
      field_simp
      ring
    · have hd : (([((e1, v1) : ℚ × ℚ), (e2, v2)]).dropLast) = [(e1, v1)] := rfl
      simp only [List.getLastD, hd]
      rw [if_neg h2, findBracket,
        if_pos ⟨le_of_lt (lt_of_not_le h1), le_of_lt (lt_of_not_le h2)⟩,
        Option.some.injEq]
      ring

/-- With at least two non-null pressure levels the interpolation always
produces a value. -/
lemma interpolate_isSome (t : ℚ) (pt : PressureTemps)
    (h2 : 2 ≤ (validPairs pt).length) :
    (interpolate_temperature_at_elevation t pt).isSome := by
  unfold interpolate_temperature_at_elevation
  apply interpolateSorted_isSome
  rwa [(List.perm_insertionSort _ (validPairs pt)).length_eq]

/-! ## Claims -/

/-- C10: for every target elevation and every pressure-temperature map
with at least 2 of the 5 levels non-null,
`interpolate_temperature_at_elevation` returns a numeric value — one of
the two extrapolation branches or the bracketing interpolation applies,
and the final `return None` fallback is unreachable. -/
theorem C10_interpolation_total (t : ℚ) (pt : PressureTemps)
    (h2 : 2 ≤ (validPairs pt).length) :
    (interpolate_temperature_at_elevation t pt).isSome :=
  interpolate_isSome t pt h2

/-- C10 witness: a concrete map with exactly two non-null levels and a
target outside the table range. -/
theorem C10_interpolation_total_witness :
    (interpolate_temperature_at_elevation 6000
      { t1000 := some 1, t500 := some 2 }).isSome :=
  C10_interpolation_total 6000 { t1000 := some 1, t500 := some 2 } (by decide)

/-- The sorted valid pairs of the spec's concrete interpolation example. -/
lemma sortedPairsEx :
    List.insertionSort (fun a b : ℚ × ℚ => a.1 ≤ b.1)
      (validPairs { t850 := some 8, t700 := some 0, t500 := some (-15) }) =
      [((1500 : ℚ), 8), ((3000 : ℚ), 0), ((5500 : ℚ), -15)] := by
  norm_num [validPairs, List.insertionSort, List.orderedInsert]

lemma interpEx_base :
    interpolate_temperature_at_elevation 2424
      { t850 := some 8, t700 := some 0, t500 := some (-15) } = some (384 / 125) := by
  show interpolateSorted _ _ = _
  rw [sortedPairsEx, interpolateSorted]
  norm_num [findBracket, List.getLastD]

lemma interpEx_mid :
    interpolate_temperature_at_elevation ((2424 + 3369) / 2)
      { t850 := some 8, t700 := some 0, t500 := some (-15) } = some (69 / 125) := by
  show interpolateSorted _ _ = _
  rw [sortedPairsEx, interpolateSorted]
  norm_num [findBracket, List.getLastD]

lemma interpEx_summit :
    interpolate_temperature_at_elevation 3369
      { t850 := some 8, t700 := some 0, t500 := some (-15) } = some (-1107 / 500) := by
  show interpolateSorted _ _ = _
  rw [sortedPairsEx, interpolateSorted]
  norm_num [findBracket, List.getLastD]

/-- C8: the banded temperature is piecewise linear interpolation between
the bracketing table levels, with linear extrapolation from the nearest
two levels outside the range — with exactly two non-null levels (850 and
700 hPa, at 1500 m and 3000 m) every target lies on the affine line
through the two points; and on `elevation_min = 2424`,
`elevation_max = 3369` with `{850: 8.0, 700: 0.0, 500: -15.0}` the base
temperature is `3.072` (within 0.05 of 3.07) and the summit temperature
is `-2.214` (within 0.05 of -2.22). -/
theorem C8_interpolation_values :
    (∀ ta tb t : ℚ,
      interpolate_temperature_at_elevation t { t850 := some ta, t700 := some tb } =
        some (ta + (tb - ta) / (3000 - 1500) * (t - 1500))) ∧
    interpolate_temperature_at_elevation 2424
      { t850 := some 8, t700 := some 0, t500 := some (-15) } = some (384 / 125) ∧
    |(384 : ℚ) / 125 - 307 / 100| ≤ 5 / 100 ∧
    interpolate_temperature_at_elevation 3369
      { t850 := some 8, t700 := some 0, t500 := some (-15) } = some (-1107 / 500) ∧
    |(-1107 : ℚ) / 500 - (-222) / 100| ≤ 5 / 100 := by
  refine ⟨?_, interpEx_base, by rw [abs_le]; constructor <;> norm_num,
    interpEx_summit, by rw [abs_le]; constructor <;> norm_num⟩
  intro ta tb t
  show interpolateSorted t _ = _
  have hs : List.insertionSort (fun a b : ℚ × ℚ => a.1 ≤ b.1)
      (validPairs { t850 := some ta, t700 := some tb }) =
      [((1500 : ℚ), ta), ((3000 : ℚ), tb)] := by
    norm_num [validPairs, List.insertionSort, List.orderedInsert]
  rw [hs, interpolateSorted_pair t 1500 3000 ta tb (by norm_num)]

/-- C1 counterexample: a successful write (commit returns `True`) leaves
the key `resorts:summary` in the cache — `_invalidate_cache` deletes
only `resort:{id}`, `resort:{slug}` and `resorts:all`, so the claim that
`resorts:summary` is also deleted fails. -/
theorem C1_counterexample :
    (save_resort_data true 7 "alta" ["resorts:summary"]).1 = true ∧
    "resorts:summary" ∈ (save_resort_data true 7 "alta" ["resorts:summary"]).2 := by
  constructor
  · rfl
  · decide

/-- C1 (amended): after a successful write the keys `resort:{id}`,
`resort:{slug}` and `resorts:all` are deleted from the cache, and every
other key — including `resorts:summary` — is preserved. -/
theorem C1_cache_invalidation (commitOk : Bool) (rid : ℕ) (slug : String)
    (cache : List String)
    (h : (save_resort_data commitOk rid slug cache).1 = true) :
    ("resort:" ++ toString rid) ∉ (save_resort_data commitOk rid slug cache).2 ∧
    ("resort:" ++ slug) ∉ (save_resort_data commitOk rid slug cache).2 ∧
    "resorts:all" ∉ (save_resort_data commitOk rid slug cache).2 ∧
    (∀ k ∈ cache, k ≠ "resort:" ++ toString rid → k ≠ "resort:" ++ slug →
      k ≠ "resorts:all" → k ∈ (save_resort_data commitOk rid slug cache).2) := by
  cases commitOk with
  | false => simp [save_resort_data] at h
  | true =>
    simp only [save_resort_data, if_true, invalidate_cache]
    refine ⟨?_, ?_, ?_, ?_⟩
    · intro hmem
      rcases List.mem_filter.mp hmem with ⟨-, hp⟩
      simp at hp
    · intro hmem
      rcases List.mem_filter.mp hmem with ⟨-, hp⟩
      simp at hp
    · intro hmem
      rcases List.mem_filter.mp hmem with ⟨-, hp⟩
      simp at hp
    · intro k hk h1 h2 h3
      exact List.mem_filter.mpr ⟨hk, by simp [h1, h2, h3]⟩

/-- C1 witness: a concrete successful write removes `resorts:all` from
the cache. -/
theorem C1_cache_invalidation_witness :
    "resorts:all" ∉ (save_resort_data true 7 "alta" ["resorts:all", "x"]).2 :=
  (C1_cache_invalidation true 7 "alta" ["resorts:all", "x"] rfl).2.2.1

/-- C2 counterexample: a stored status `open` with an opening date equal
to today is rewritten to `closed` by the code (the source treats
`difference ≥ 0`, not only strictly future dates, as not yet open),
whereas the claim leaves only future opening dates forced to `closed`
and would report `open` here. -/
theorem C2_counterexample :
    detailStatus { status := "open", extra_data := some { opening_date := some "2025-11-20" } }
      (daysFromCivil 2025 11 20) = "closed" ∧ ("closed" : String) ≠ "open" := by
  constructor
  · decide
  · decide

/-- C2 (amended): for a present and parseable `extra.opening_date`, both
the single-resort read path and the summary read path return the same
status, computed as: opened 1–50 days before today → `open`; opening
date today or in the future → `closed`; opened more than 50 days ago →
the stored status. (In particular stored `closed` with opening date
2025-11-10 and today 2025-11-20 is reported `open`.) -/
theorem C2_status_rewrite (c : ConditionRow) (today opening : ℤ) (s : String)
    (hod : openingDateOf c = some s)
    (hp : parseIsoDate s = some opening) :
    detailStatus c today = summaryStatus c today ∧
    (opening - today < 0 → -(opening - today) ≤ 50 →
      detailStatus c today = "open") ∧
    (0 ≤ opening - today → detailStatus c today = "closed") ∧
    (opening - today < 0 → 50 < -(opening - today) →
      detailStatus c today = c.status) := by
  have hs : s ≠ "" := by
    intro h
    subst h
    simp [parseIsoDate] at hp
  simp only [detailStatus, summaryStatus, calculate_status_by_opening_date, hod,
    if_neg hs, hp]
  refine ⟨trivial, ?_, ?_, ?_⟩
  · intro hlt hle
    rw [if_pos hlt, if_pos hle]
  · intro hge
    rw [if_neg (not_lt.mpr hge)]
  · intro hlt hgt
    rw [if_pos hlt, if_neg (not_le.mpr hgt)]

/-- C2 witness: the claim's concrete scenario — stored `closed`, opening
date 2025-11-10, today 2025-11-20 — is reported `open` on both read
paths. -/
theorem C2_status_rewrite_witness :
    detailStatus { status := "closed", extra_data := some { opening_date := some "2025-11-10" } }
      (daysFromCivil 2025 11 20) = "open" :=
  (C2_status_rewrite
    { status := "closed", extra_data := some { opening_date := some "2025-11-10" } }
    (daysFromCivil 2025 11 20) (daysFromCivil 2025 11 10) "2025-11-10"
    rfl rfl).2.1 (by decide) (by decide)

/-- C6 counterexample: on a 403 response the fetcher does retry — with
outcomes `[403, 200, ...]` it makes a second attempt and returns that
attempt's 200 response, whereas the claim says a non-retryable 4xx ends
the fetch after one attempt. -/
theorem C6_counterexample :
    fetch_with_retry (fun k => if k = 0 then .resp 403 else .resp 200) 3 =
      (some 200, 2) ∧ (2 : ℕ) ≠ 1 := by
  constructor
  · decide
  · decide

/-- C6 (amended): the fetcher stops immediately on a 200 (success) or a
404 (immediate `None`), and retries on every other outcome — any other
response status (including 4xx such as 403) as well as timeouts,
connection errors and other request errors — until the attempts are
exhausted, after which it returns `None`; it never makes more than
`max_retries` attempts. -/
theorem C6_retry_policy (env : ℕ → Attempt) (k n : ℕ) :
    (env k = .resp 200 → fetchLoop env k (n + 1) = (some 200, k + 1)) ∧
    (env k = .resp 404 → fetchLoop env k (n + 1) = (none, k + 1)) ∧
    (∀ s, env k = .resp s → s ≠ 200 → s ≠ 404 →
      fetchLoop env k (n + 1) = fetchLoop env (k + 1) n) ∧
    ((env k = .timeout ∨ env k = .connErr ∨ env k = .reqErr) →
      fetchLoop env k (n + 1) = fetchLoop env (k + 1) n) ∧
    fetchLoop env k 0 = (none, k) ∧
    (fetch_with_retry env n).2 ≤ n := by
  have hbound : ∀ (m j : ℕ), (fetchLoop env j m).2 ≤ j + m := by
    intro m
    induction m with
    | zero => intro j; simp [fetchLoop]
    | succ m ih =>
      intro j
      rw [fetchLoop]
      cases henv : env j with
      | resp s =>
        by_cases h200 : s = 200
        · simp [h200]
        · by_cases h404 : s = 404
          · simp [h200, h404]
          · simp only [h200, h404, if_false]
            calc (fetchLoop env (j + 1) m).2 ≤ j + 1 + m := ih (j + 1)
              _ = j + (m + 1) := by omega
      | timeout =>
        calc (fetchLoop env (j + 1) m).2 ≤ j + 1 + m := ih (j + 1)
          _ = j + (m + 1) := by omega
      | connErr =>
        calc (fetchLoop env (j + 1) m).2 ≤ j + 1 + m := ih (j + 1)
          _ = j + (m + 1) := by omega
      | reqErr =>
        calc (fetchLoop env (j + 1) m).2 ≤ j + 1 + m := ih (j + 1)
          _ = j + (m + 1) := by omega
  refine ⟨?_, ?_, ?_, ?_, rfl, by simpa using hbound n 0⟩
  · intro h
    rw [fetchLoop, h]
    simp
  · intro h
    rw [fetchLoop, h]
    simp
  · intro s h h200 h404
    rw [fetchLoop, h]
    simp [h200, h404]
  · intro h
    rcases h with h | h | h <;> rw [fetchLoop, h]

/-- C6 witness: a first-attempt 404 ends the fetch after exactly one
attempt with a `None` result. -/
theorem C6_retry_policy_witness :
    fetchLoop (fun _ => .resp 404) 0 3 = (none, 1) :=
  (C6_retry_policy (fun _ => .resp 404) 0 2).2.1 rfl

/-- An upstream count value of the kinds the coercion claim quantifies
over: absent/null, a non-convertible value, a sentinel or non-numeric
string, or a non-negative number. -/
def benignCountInput (v : Option PyVal) : Prop :=
  v = none ∨ v = some .other ∨ (∃ n, v = some (.coll n)) ∨
  (∃ q, v = some (.num q) ∧ 0 ≤ q) ∨
  (∃ s, v = some (.str s) ∧
    (trimL s.toList = ['-', '-'] ∨ trimL s.toList = [] ∨ parseFloat s = none))

/-- An upstream depth value that must coerce to `NULL`: absent/null, a
non-convertible value, or a sentinel or non-numeric string. -/
def nullishDepthInput (v : Option PyVal) : Prop :=
  v = none ∨ v = some .other ∨ (∃ n, v = some (.coll n)) ∨
  (∃ s, v = some (.str s) ∧
    (trimL s.toList = ['-', '-'] ∨ trimL s.toList = [] ∨ parseFloat s = none))

lemma handle_none_as_zero_nonneg (v : Option PyVal) (h : benignCountInput v) :
    0 ≤ handle_none_as_zero v := by
  rcases h with h | h | ⟨n, h⟩ | ⟨q, h, hq⟩ | ⟨s, h, hs⟩ <;> subst h
  · exact le_refl 0
  · show (0 : ℚ) ≤ if isSentinelStr .other then 0
      else if PyVal.truthy .other then (pyFloat .other).getD 0 else 0
    split_ifs <;> exact le_refl 0
  · show (0 : ℚ) ≤ if isSentinelStr (.coll n) then 0
      else if (PyVal.coll n).truthy then (pyFloat (.coll n)).getD 0 else 0
    split_ifs <;> exact le_refl 0
  · show (0 : ℚ) ≤ if isSentinelStr (.num q) then 0
      else if (PyVal.num q).truthy then (pyFloat (.num q)).getD 0 else 0
    split_ifs with h1 h2
    · exact le_refl 0
    · exact hq
    · exact le_refl 0
  · show (0 : ℚ) ≤ if isSentinelStr (.str s) then 0
      else if (PyVal.str s).truthy then (pyFloat (.str s)).getD 0 else 0
    split_ifs with h1 h2
    · exact le_refl 0
    · show (0 : ℚ) ≤ (parseFloat s).getD 0
      rcases hs with hs | hs | hs
      · exact absurd (by
          simp only [isSentinelStr, Bool.or_eq_true, decide_eq_true_eq]
          exact Or.inl hs) h1
      · exact absurd (by
          simp only [isSentinelStr, Bool.or_eq_true, decide_eq_true_eq]
          exact Or.inr hs) h1
      · rw [hs]
        exact le_refl 0
    · exact le_refl 0

lemma handle_none_preserve_nullish (v : Option PyVal) (h : nullishDepthInput v) :
    handle_none_preserve v = none := by
  rcases h with h | h | ⟨n, h⟩ | ⟨s, h, hs⟩ <;> subst h
  · rfl
  · show (if isSentinelStr .other then none
      else if PyVal.truthy .other then pyFloat .other else none) = none
    split_ifs <;> rfl
  · show (if isSentinelStr (.coll n) then none
      else if (PyVal.coll n).truthy then pyFloat (.coll n) else none) = none
    split_ifs <;> rfl
  · show (if isSentinelStr (.str s) then none
      else if (PyVal.str s).truthy then pyFloat (.str s) else none) = none
    split_ifs with h1 h2
    · rfl
    · show parseFloat s = none
      rcases hs with hs | hs | hs
      · exact absurd (by
          simp only [isSentinelStr, Bool.or_eq_true, decide_eq_true_eq]
          exact Or.inl hs) h1
      · exact absurd (by
          simp only [isSentinelStr, Bool.or_eq_true, decide_eq_true_eq]
          exact Or.inr hs) h1
      · exact hs
    · rfl

lemma pyOrOpt_nullish (a b : Option PyVal) (ha : nullishDepthInput a)
    (hb : nullishDepthInput b) : nullishDepthInput (pyOrOpt a b) := by
  match a with
  | none => simpa [pyOrOpt] using hb
  | some v =>
    by_cases hv : v.truthy
    · simpa [pyOrOpt, hv] using ha
    · simpa [pyOrOpt, hv] using hb

/-- C5 counterexample: a negative lift/run count from the upstream feed
is not clamped — an onthesnow payload with `runs.open = -3` yields a
normalized record whose `trails_open` is negative, contradicting the
claimed non-negativity of count fields. -/
theorem C5_counterexample :
    (normalize_onthesnow { runs_open := some (.num (-3)) }).trails_open < 0 := by
  have h : (normalize_onthesnow { runs_open := some (.num (-3)) }).trails_open = -3 := by
    decide
  rw [h]
  norm_num

/-- C5 (amended): the onthesnow normalizer coerces null, `"--"`, empty
and non-numeric strings, and non-convertible values to 0 for the four
count fields and to `NULL` for the depth fields, and keeps non-negative
numeric counts non-negative — but it does not clamp negative counts, and
the mtnpowder normalizer applies no coercion at all to its count fields
(a `"--"` passes through verbatim; only the temperature goes through
`safe_float`). -/
theorem C5_coercion (raw : OtsRaw)
    (h1 : benignCountInput raw.lifts_open) (h2 : benignCountInput raw.lifts_total)
    (h3 : benignCountInput raw.runs_open) (h4 : benignCountInput raw.runs_total)
    (h5 : nullishDepthInput raw.snow_base) (h6 : nullishDepthInput raw.snow_summit) :
    0 ≤ (normalize_onthesnow raw).lifts_open ∧
    0 ≤ (normalize_onthesnow raw).lifts_total ∧
    0 ≤ (normalize_onthesnow raw).trails_open ∧
    0 ≤ (normalize_onthesnow raw).trails_total ∧
    (normalize_onthesnow raw).base_depth = none ∧
    (normalize_onthesnow raw).snow_summit = none ∧
    (normalize_mtnpowder
      { SnowReport := { TotalOpenLifts := some (.str "--") } }).lifts_open =
      .str "--" ∧
    (normalize_mtnpowder { TemperatureC := some (.str "--") }).temperature = 0 := by
  simp only [normalize_onthesnow]
  exact ⟨handle_none_as_zero_nonneg _ h1, handle_none_as_zero_nonneg _ h2,
    handle_none_as_zero_nonneg _ h3, handle_none_as_zero_nonneg _ h4,
    handle_none_preserve_nullish _ (pyOrOpt_nullish _ _ h5 h6),
    handle_none_preserve_nullish _ h6, rfl, by decide⟩

/-- C5 witness: an onthesnow payload with all the relevant keys absent
yields non-negative counts and `NULL` depths. -/
theorem C5_coercion_witness :
    0 ≤ (normalize_onthesnow {}).trails_open ∧
    (normalize_onthesnow {}).base_depth = none :=
  ⟨(C5_coercion {} (Or.inl rfl) (Or.inl rfl) (Or.inl rfl) (Or.inl rfl)
      (Or.inl rfl) (Or.inl rfl)).2.2.1,
   (C5_coercion {} (Or.inl rfl) (Or.inl rfl) (Or.inl rfl) (Or.inl rfl)
      (Or.inl rfl) (Or.inl rfl)).2.2.2.2.1⟩

/-- C9 counterexample: with resort status `closed`, a zero `lifts_total`
is scored `warning`, not `success` — the zero exemption list in the
source contains only `new_snow`, `base_depth`, `lifts_open` and
`trails_open`, not `lifts_total`/`trails_total` as the claim states. -/
theorem C9_counterexample :
    (check_field "closed" "lifts_total" (some (.num 0)) false).status = "warning" ∧
    ("warning" : String) ≠ "success" := by
  constructor
  · decide
  · decide

/-- C9 (amended): a numeric field equal to 0 is scored `warning` when
its key does not contain `temp`; the closed/partial exemption applies
exactly to `new_snow`, `base_depth`, `lifts_open` and `trails_open`
(scored `success` with the "resort not open" note), while `lifts_total`
and `trails_total` still score `warning` at 0 even when the resort is
closed or in partial operation. -/
theorem C9_zero_policy (st key : String)
    (hst : st = "closed" ∨ st = "partial") :
    (key ∈ zeroExemptFields →
      check_field st key (some (.num 0)) false =
        ⟨key, "success", "雪场未开放（正常）"⟩) ∧
    ((key = "lifts_total" ∨ key = "trails_total") →
      (check_field st key (some (.num 0)) false).status = "warning") ∧
    (∀ st' key',
      hasSubL "temperature".toList (lowerL key'.toList) = false →
      hasSubL "temp".toList (lowerL key'.toList) = false →
      ¬(st' = "closed" ∨ st' = "partial") ∨ key' ∉ zeroExemptFields →
      (check_field st' key' (some (.num 0)) false).status = "warning") := by
  refine ⟨?_, ?_, ?_⟩
  · intro hk
    simp only [check_field]
    rw [if_pos ⟨hst, hk, by trivial⟩]
  · intro hk
    rcases hk with h | h <;> subst h <;>
    · simp only [check_field]
      rw [if_neg (fun hc => (by decide : ¬ _ ∈ zeroExemptFields) hc.2.1)]
      rw [if_neg (by decide)]
      rw [if_pos (by trivial)]
  · intro st' key' ht1 ht2 hnot
    simp only [check_field]
    rw [if_neg (fun hc => by
      rcases hnot with h | h
      · exact h hc.1
      · exact h hc.2.1)]
    rw [if_neg (fun hc => by
      rcases hc with h | h
      · rw [ht1] at h
        exact Bool.false_ne_true h
      · rw [ht2] at h
        exact Bool.false_ne_true h)]
    rw [if_pos (by trivial)]

/-- C9 witness: concrete checks — `lifts_open = 0` with a closed resort
scores `success`, `lifts_total = 0` scores `warning`, and
`new_snow = 0` with an open resort scores `warning`. -/
theorem C9_zero_policy_witness :
    check_field "closed" "lifts_open" (some (.num 0)) false =
      ⟨"lifts_open", "success", "雪场未开放（正常）"⟩ ∧
    (check_field "closed" "trails_total" (some (.num 0)) false).status = "warning" ∧
    (check_field "open" "new_snow" (some (.num 0)) false).status = "warning" :=
  ⟨(C9_zero_policy "closed" "lifts_open" (Or.inl rfl)).1 (by decide),
   (C9_zero_policy "closed" "trails_total" (Or.inl rfl)).2.1 (Or.inr rfl),
   (C9_zero_policy "closed" "whatever" (Or.inl rfl)).2.2 "open" "new_snow"
     (by decide) (by decide) (Or.inl (by decide))⟩

lemma classifyError_mem (e : String) : classifyError e ∈ errorTypes := by
  unfold classifyError
  split_ifs <;> decide

/-- C7: every failure of the fetch/adapter/persistence steps is caught
inside the worker — a raised exception, an empty collect result, or a
failed database save each yield no record back to the orchestrator
(data component `none`, the worker returning a plain pair rather than
propagating), and exactly one failure-tracker entry whose `error_type`
is the classified type, always within the error taxonomy. -/
theorem C7_worker_failures {α : Type} (resortId : Option ℕ)
    (resortName sourceUrl : Option String)
    (outcome : Except String (Option α)) (dbSave : α → Bool) :
    (∀ msg, outcome = .error msg →
      (collect_single_resort resortId resortName sourceUrl outcome true dbSave).1.1 = none ∧
      (collect_single_resort resortId resortName sourceUrl outcome true dbSave).2 =
        [⟨resortId, resortName, classifyError msg, ⟨msg.toList.take 200⟩,
          sourceUrl.getD "N/A"⟩] ∧
      classifyError msg ∈ errorTypes) ∧
    (outcome = .ok none →
      (collect_single_resort resortId resortName sourceUrl outcome true dbSave).1.1 = none ∧
      (collect_single_resort resortId resortName sourceUrl outcome true dbSave).2 =
        [⟨resortId, resortName, "NO_DATA", "采集器返回空数据", sourceUrl.getD "N/A"⟩]) ∧
    (∀ d, outcome = .ok (some d) → dbSave d = false →
      (collect_single_resort resortId resortName sourceUrl outcome true dbSave).1.1 = none ∧
      (collect_single_resort resortId resortName sourceUrl outcome true dbSave).2 =
        [⟨resortId, resortName, "DATABASE_SAVE_FAILED", "数据采集成功但数据库保存失败",
          sourceUrl.getD "N/A"⟩]) ∧
    (∀ f ∈ (collect_single_resort resortId resortName sourceUrl outcome true dbSave).2,
      f.error_type ∈ errorTypes) := by
  refine ⟨?_, ?_, ?_, ?_⟩
  · intro msg h
    subst h
    exact ⟨rfl, rfl, classifyError_mem msg⟩
  · intro h
    subst h
    exact ⟨rfl, rfl⟩
  · intro d h hdb
    subst h
    simp [collect_single_resort, hdb]
  · intro f hf
    match outcome with
    | .error msg =>
      simp only [collect_single_resort, List.mem_singleton] at hf
      rw [hf]
      exact classifyError_mem msg
    | .ok none =>
      simp only [collect_single_resort, List.mem_singleton] at hf
      rw [hf]
      show "NO_DATA" ∈ errorTypes
      decide
    | .ok (some d) =>
      by_cases hdb : dbSave d
      · simp [collect_single_resort, hdb] at hf
      · simp only [collect_single_resort, hdb, Bool.false_eq_true, if_false,
          if_true, List.mem_singleton] at hf
        rw [hf]
        show "DATABASE_SAVE_FAILED" ∈ errorTypes
        decide

/-- C7 witness: a worker whose collect step raised a connection error
emits no record and records one `CONNECTION_ERROR` entry. -/
theorem C7_worker_failures_witness :
    (collect_single_resort (α := Unit) (some 1) (some "X") none
      (.error "connection refused") true (fun _ => true)).1.1 = none ∧
    classifyError "connection refused" = "CONNECTION_ERROR" ∧
    classifyError "connection refused" ∈ errorTypes :=
  ⟨((C7_worker_failures (α := Unit) (some 1) (some "X") none
      (.error "connection refused") (fun _ => true)).1 "connection refused" rfl).1,
   by decide,
   ((C7_worker_failures (α := Unit) (some 1) (some "X") none
      (.error "connection refused") (fun _ => true)).1 "connection refused" rfl).2.2⟩

/-- C3 counterexample: with 8 days of daily data available, the
normalized daily forecast sequence has 7 points, not the claimed 8 —
the source loop is `range(min(7, len(times)))`. -/
theorem C3_counterexample :
    (normalize_openmeteo {}
      { daily := some { time := ["d1", "d2", "d3", "d4", "d5", "d6", "d7", "d8"] } }).forecast_7d.length = 7 ∧
    (["d1", "d2", "d3", "d4", "d5", "d6", "d7", "d8"] : List String).length = 8 ∧
    (7 : ℕ) ≠ 8 := by
  refine ⟨?_, rfl, by decide⟩
  decide

/-- C3 (amended): the hourly forecast sequence contains exactly the
first `min(80, available)` hourly samples of the raw series starting at
index 0, each item built from index `i` of the parallel hourly arrays;
the daily sequence contains `min(7, available)` daily points — 7, not
8, when at least 7 days are available. -/
theorem C3_forecast_horizons (conf : ResortConf) (raw : OMRaw) :
    (normalize_openmeteo conf raw).hourly_forecast.length =
      min 80 raw.hourly.time.length ∧
    (∀ i, i < min 80 raw.hourly.time.length →
      (normalize_openmeteo conf raw).hourly_forecast.get? i =
        some (hourlyItem conf raw.hourly i)) ∧
    (∀ d, raw.daily = some d →
      (normalize_openmeteo conf raw).forecast_7d.length = min 7 d.time.length) := by
  refine ⟨?_, ?_, ?_⟩
  · simp [normalize_openmeteo]
  · intro i hi
    simp only [normalize_openmeteo]
    rw [List.get?_map, List.get?_range hi]
    rfl
  · intro d hd
    simp [normalize_openmeteo, hd]

/-- C3 witness: on a payload with 2 hourly samples and 8 daily days, the
hourly item at index 0 is the sample at raw index 0 and the daily
sequence has `min 7 8 = 7` points. -/
theorem C3_forecast_horizons_witness :
    (normalize_openmeteo {}
      { hourly := { time := ["t0", "t1"] },
        daily := some { time := ["d1", "d2", "d3", "d4", "d5", "d6", "d7", "d8"] } }).hourly_forecast.get? 0 =
      some (hourlyItem {} { time := ["t0", "t1"] } 0) ∧
    (normalize_openmeteo {}
      { hourly := { time := ["t0", "t1"] },
        daily := some { time := ["d1", "d2", "d3", "d4", "d5", "d6", "d7", "d8"] } }).forecast_7d.length = min 7 8 :=
  ⟨(C3_forecast_horizons {}
      { hourly := { time := ["t0", "t1"] },
        daily := some { time := ["d1", "d2", "d3", "d4", "d5", "d6", "d7", "d8"] } }).2.1
      0 (by decide),
   (C3_forecast_horizons {}
      { hourly := { time := ["t0", "t1"] },
        daily := some { time := ["d1", "d2", "d3", "d4", "d5", "d6", "d7", "d8"] } }).2.2
      { time := ["d1", "d2", "d3", "d4", "d5", "d6", "d7", "d8"] } rfl⟩

/-- C4 counterexample: a payload with 2 non-null pressure levels whose
temperatures are implausible (100 °C) yields `temp_base = NULL` even
though both elevations are configured — the plausibility filter rejects
values outside (-50, 50) to `NULL`, so the claimed unconditional
non-nullity fails. -/
theorem C4_counterexample :
    2 ≤ (validPairs (pressureAt
      { temperature_1000hPa := [some 100], temperature_925hPa := [some 100] } 0)).length ∧
    (normalize_openmeteo { elevation_min := some 500, elevation_max := some 1000 }
      { hourly := { temperature_1000hPa := [some 100],
                    temperature_925hPa := [some 100] } }).temp_base = none := by
  refine ⟨by decide, ?_⟩
  have hint : interpolate_temperature_at_elevation 500
      { t1000 := some 100, t925 := some 100 } = some 100 := by
    show interpolateSorted _ _ = _
    have hs : List.insertionSort (fun a b : ℚ × ℚ => a.1 ≤ b.1)
        (validPairs { t1000 := some 100, t925 := some 100 }) =
        [((110 : ℚ), 100), ((750 : ℚ), 100)] := by
      norm_num [validPairs, List.insertionSort, List.orderedInsert]
    rw [hs, interpolateSorted]
    norm_num [findBracket, List.getLastD]
  have hint' : interpolate_temperature_at_elevation 500
      (pressureAt
        { temperature_1000hPa := [some 100], temperature_925hPa := [some 100] }
        0) = some 100 := hint
  simp only [normalize_openmeteo, bandedAt]
  rw [if_pos (by decide)]
  rw [show ((some (500 : ℚ)).getD 0) = 500 from rfl]
  rw [hint']
  simp only [plausibleTemp]
  rw [if_neg (by norm_num)]

/-- C4 (amended): with both elevations configured (non-null and nonzero)
and at least 2 non-null pressure levels at the current hour, the
interpolation always produces a value, and whenever each interpolated
value lies strictly within the plausibility window (-50, 50) °C the
fields `temp_base`, `temp_mid`, `temp_summit` are all non-NULL and lie
within [-50, 50] °C; interpolated values outside that window are stored
as NULL instead. -/
theorem C4_banded_temperatures (conf : ResortConf) (raw : OMRaw) (emin emax : ℚ)
    (hmin : conf.elevation_min = some emin) (hmin0 : emin ≠ 0)
    (hmax : conf.elevation_max = some emax) (hmax0 : emax ≠ 0)
    (h2 : 2 ≤ (validPairs (pressureAt raw.hourly 0)).length)
    (hb : ∀ q, interpolate_temperature_at_elevation emin (pressureAt raw.hourly 0) =
      some q → -50 < q ∧ q < 50)
    (hm : ∀ q, interpolate_temperature_at_elevation ((emin + emax) / 2)
      (pressureAt raw.hourly 0) = some q → -50 < q ∧ q < 50)
    (hsu : ∀ q, interpolate_temperature_at_elevation emax (pressureAt raw.hourly 0) =
      some q → -50 < q ∧ q < 50) :
    (∃ q, (normalize_openmeteo conf raw).temp_base = some q ∧ -50 ≤ q ∧ q ≤ 50) ∧
    (∃ q, (normalize_openmeteo conf raw).temp_mid = some q ∧ -50 ≤ q ∧ q ≤ 50) ∧
    (∃ q, (normalize_openmeteo conf raw).temp_summit = some q ∧ -50 ≤ q ∧ q ≤ 50) := by
  have hband : (truthyOptQ conf.elevation_min && truthyOptQ conf.elevation_max) = true := by
    rw [hmin, hmax]
    simp [truthyOptQ, hmin0, hmax0]
  refine ⟨?_, ?_, ?_⟩
  · obtain ⟨q, hq⟩ := Option.isSome_iff_exists.mp
      (interpolate_isSome emin (pressureAt raw.hourly 0) h2)
    have hbd := hb q hq
    refine ⟨q, ?_, hbd.1.le, hbd.2.le⟩
    simp only [normalize_openmeteo]
    rw [if_pos hband, hmin]
    simp only [Option.getD_some, bandedAt]
    rw [hq]
    simp only [plausibleTemp]
    rw [if_pos hbd]
  · obtain ⟨q, hq⟩ := Option.isSome_iff_exists.mp
      (interpolate_isSome ((emin + emax) / 2) (pressureAt raw.hourly 0) h2)
    have hbd := hm q hq
    refine ⟨q, ?_, hbd.1.le, hbd.2.le⟩
    simp only [normalize_openmeteo]
    rw [if_pos hband, hmin, hmax]
    simp only [Option.getD_some, bandedAt]
    rw [hq]
    simp only [plausibleTemp]
    rw [if_pos hbd]
  · obtain ⟨q, hq⟩ := Option.isSome_iff_exists.mp
      (interpolate_isSome emax (pressureAt raw.hourly 0) h2)
    have hbd := hsu q hq
    refine ⟨q, ?_, hbd.1.le, hbd.2.le⟩
    simp only [normalize_openmeteo]
    rw [if_pos hband, hmax]
    simp only [Option.getD_some, bandedAt]
    rw [hq]
    simp only [plausibleTemp]
    rw [if_pos hbd]

/-- C4 witness: the spec's concrete resort (2424 m / 3369 m, pressure
temps 8 / 0 / -15 at 850/700/500 hPa) has all three banded temperatures
non-NULL and within range. -/
theorem C4_banded_temperatures_witness :
    (∃ q, (normalize_openmeteo { elevation_min := some 2424, elevation_max := some 3369 }
      { hourly := { temperature_850hPa := [some 8], temperature_700hPa := [some 0],
                    temperature_500hPa := [some (-15)] } }).temp_base = some q ∧
      -50 ≤ q ∧ q ≤ 50) ∧
    (∃ q, (normalize_openmeteo { elevation_min := some 2424, elevation_max := some 3369 }
      { hourly := { temperature_850hPa := [some 8], temperature_700hPa := [some 0],
                    temperature_500hPa := [some (-15)] } }).temp_mid = some q ∧
      -50 ≤ q ∧ q ≤ 50) ∧
    (∃ q, (normalize_openmeteo { elevation_min := some 2424, elevation_max := some 3369 }
      { hourly := { temperature_850hPa := [some 8], temperature_700hPa := [some 0],
                    temperature_500hPa := [some (-15)] } }).temp_summit = some q ∧
      -50 ≤ q ∧ q ≤ 50) :=
  C4_banded_temperatures
    { elevation_min := some 2424, elevation_max := some 3369 }
    { hourly := { temperature_850hPa := [some 8], temperature_700hPa := [some 0],
                  temperature_500hPa := [some (-15)] } }
    2424 3369 rfl (by norm_num) rfl (by norm_num) (by decide)
    (fun q h => by
      have h' : interpolate_temperature_at_elevation 2424
          { t850 := some 8, t700 := some 0, t500 := some (-15) } = some q := h
      rw [interpEx_base] at h'
      obtain rfl := Option.some.inj h'
      constructor <;> norm_num)
    (fun q h => by
      have h' : interpolate_temperature_at_elevation ((2424 + 3369) / 2)
          { t850 := some 8, t700 := some 0, t500 := some (-15) } = some q := h
      rw [interpEx_mid] at h'
      obtain rfl := Option.some.inj h'
      constructor <;> norm_num)
    (fun q h => by
      have h' : interpolate_temperature_at_elevation 3369
          { t850 := some 8, t700 := some 0, t500 := some (-15) } = some q := h
      rw [interpEx_summit] at h'
      obtain rfl := Option.some.inj h'
      constructor <;> norm_num)

end SnowApi
